import Mathlib

/-!
Verification of the credential-derivation script `get_polymarket_keys.py`.

The script is straight-line Python: it prints two progress messages,
constructs a `ClobClient` for the Polymarket CLOB endpoint, performs one
`create_or_derive_api_creds()` call against the remote venue, and on success
prints the resulting credential triplet twice in `KEY=VALUE` form.  We embed
the script shallowly: the single external call is a parameter (its outcome,
an `Except` of the spec's error taxonomy), and the run is a pure function
from that outcome to the observable trace (stdout writes, client
construction, the derive call) and exit status.  Standard output is modelled
at character level; a separate line-splitting function recovers the printed
lines so that line-oriented properties can be stated faithfully.
-/

namespace PolymarketKeys

/-- The immutable credential triplet returned by the remote venue
(`creds.api_key`, `creds.api_secret`, `creds.api_passphrase` in the script). -/
structure ApiCreds where
  api_key : String
  api_secret : String
  api_passphrase : String
deriving DecidableEq

/-- The client constructed on line 9 of the script:
`ClobClient(host=..., chain_id=..., key=...)`. -/
structure ClobClient where
  host : String
  chain_id : Nat
  key : String
deriving DecidableEq

/-- Error taxonomy of the credential-derivation call (spec section 7).
Modelled from the spec: the `py_clob_client` library is external to this
repository. -/
inductive DeriveError where
  | AuthenticationError : DeriveError
  | NetworkError : DeriveError
  | RemoteServiceError : DeriveError
deriving DecidableEq

/-- The possible behaviours of the remote venue on the single
`create_or_derive_api_creds()` round trip.  Modelled from the spec: the
remote collaborator is a black box; these are the outcomes the spec
enumerates (success, rejected signing key, unreachable endpoint, timeout,
other non-2xx application-level response with its status code). -/
inductive VenueOutcome where
  | ok : ApiCreds → VenueOutcome
  | rejectedKey : VenueOutcome
  | unreachable : VenueOutcome
  | timeout : VenueOutcome
  | non2xx : Nat → VenueOutcome
deriving DecidableEq

/-- Modelled from the spec: the result of `client.create_or_derive_api_creds()`
(the `py_clob_client` implementation is not part of this repository).  Maps
each venue behaviour to the spec's error taxonomy: a rejected signing key
yields `AuthenticationError`, an unreachable endpoint or a timeout yields
`NetworkError`, and any other non-2xx application-level response yields
`RemoteServiceError`; a successful response yields the credential triplet. -/
def deriveCredentials : VenueOutcome → Except DeriveError ApiCreds
  | VenueOutcome.ok creds => Except.ok creds
  | VenueOutcome.rejectedKey => Except.error DeriveError.AuthenticationError
  | VenueOutcome.unreachable => Except.error DeriveError.NetworkError
  | VenueOutcome.timeout => Except.error DeriveError.NetworkError
  | VenueOutcome.non2xx _ => Except.error DeriveError.RemoteServiceError

/-- Line 5 of the script: the hard-coded private signing key. -/
def private_key : String :=
  "0x4c114c6fe82b4f9ddd47a9d94d2eb2fe4ad1842a54b8434b4bc50eb9109ca70a"

/-- Line 6 of the script: `chain_id = 137` (Polygon mainnet). -/
def chain_id : Nat := 137

/-- Line 9 of the script: the constructed client value. -/
def client : ClobClient :=
  { host := "https://clob.polymarket.com", chain_id := chain_id, key := private_key }

/-- The arguments of the two `print` calls that run before the derive call
(lines 8 and 11 of the script). -/
def preludePrints : List String :=
  ["[*] Connecting to Polymarket CLOB...",
   "[*] Deriving API credentials..."]

/-- The arguments of the `print` calls issued after a successful derive call
(lines 14 to 22 of the script), in program order.  Note the `\n` embedded in
the f-strings of lines 14 and 17. -/
def credentialPrints (creds : ApiCreds) : List String :=
  ["\nSUCCESS! Your Polymarket CLOB credentials:\n",
   "POLYMARKET_API_KEY=" ++ creds.api_key,
   "POLYMARKET_SECRET=" ++ creds.api_secret,
   "POLYMARKET_PASSPHRASE=" ++ creds.api_passphrase ++ "\n",
   "Update your .env.local file with:",
   "POLYMARKET_API_KEY=" ++ creds.api_key,
   "POLYMARKET_SECRET=" ++ creds.api_secret,
   "POLYMARKET_PASSPHRASE=" ++ creds.api_passphrase]

/-- The arguments of every `print` call a run issues, as a function of the
outcome of the one external call.  A failing call raises: the prints after
it never run (Python propagates the exception and the process dies). -/
def runPrints (r : Except DeriveError ApiCreds) : List String :=
  preludePrints ++
    match r with
    | Except.ok creds => credentialPrints creds
    | Except.error _ => []

/-- Python's `print`: writes its argument followed by one newline.
Rendering a list of print calls concatenates those writes. -/
def renderPrints : List String → String
  | [] => ""
  | x :: rest => x ++ "\n" ++ renderPrints rest

/-- Everything a run writes to standard output. -/
def runStdout (r : Except DeriveError ApiCreds) : String :=
  renderPrints (runPrints r)

/-- Exit status of the run: an uncaught exception from the derive call makes
the Python process exit non-zero; otherwise the script falls off the end and
exits zero. -/
def runExitOk (r : Except DeriveError ApiCreds) : Bool :=
  match r with
  | Except.ok _ => true
  | Except.error _ => false

/-- The error surfaced to the operator (Python's traceback on stderr names
the raised exception); `none` on a successful run. -/
def runErrorMessage (r : Except DeriveError ApiCreds) : Option DeriveError :=
  match r with
  | Except.ok _ => none
  | Except.error e => some e

/-- The externally observable events of a run, in program order: stdout
writes, the client construction of line 9, and the derive call of line 12. -/
inductive ScriptEvent where
  | stdoutWrite : String → ScriptEvent
  | clientInit : ClobClient → ScriptEvent
  | deriveCall : ScriptEvent
deriving DecidableEq

/-- The event trace of a run: two progress prints around the client
construction, then the single derive call, then (only on success) the
credential prints. -/
def runTrace (r : Except DeriveError ApiCreds) : List ScriptEvent :=
  [ScriptEvent.stdoutWrite "[*] Connecting to Polymarket CLOB...",
   ScriptEvent.clientInit client,
   ScriptEvent.stdoutWrite "[*] Deriving API credentials...",
   ScriptEvent.deriveCall] ++
    match r with
    | Except.ok creds => (credentialPrints creds).map ScriptEvent.stdoutWrite
    | Except.error _ => []

/-- Whether an event is the derive call. -/
def ScriptEvent.isDeriveCall : ScriptEvent → Bool
  | ScriptEvent.deriveCall => true
  | _ => false

/-- How many derive calls a trace contains. -/
def deriveCallCount (t : List ScriptEvent) : Nat :=
  t.countP ScriptEvent.isDeriveCall

/-- The stdout writes of a trace, in order. -/
def tracePrints (t : List ScriptEvent) : List String :=
  t.filterMap fun e =>
    match e with
    | ScriptEvent.stdoutWrite s => some s
    | _ => none

/-- The `presentCredentials` operation of the spec as the source implements
it (lines 15 to 17 of the script): three `print` calls, the third with a
trailing `\n` inside the f-string. -/
def presentCredentials (creds : ApiCreds) : List String :=
  ["POLYMARKET_API_KEY=" ++ creds.api_key,
   "POLYMARKET_SECRET=" ++ creds.api_secret,
   "POLYMARKET_PASSPHRASE=" ++ creds.api_passphrase ++ "\n"]

/-- The stdout text `presentCredentials` produces. -/
def presentCredentialsOut (creds : ApiCreds) : String :=
  renderPrints (presentCredentials creds)

/-- The three `KEY=VALUE` lines for a triplet, in source order. -/
def credBlock (creds : ApiCreds) : List String :=
  ["POLYMARKET_API_KEY=" ++ creds.api_key,
   "POLYMARKET_SECRET=" ++ creds.api_secret,
   "POLYMARKET_PASSPHRASE=" ++ creds.api_passphrase]

/-- A triplet whose fields contain no newline character, so that the three
rendered `KEY=VALUE` lines are single lines of output. -/
def LineSafe (creds : ApiCreds) : Prop :=
  '\n' ∉ creds.api_key.data ∧ '\n' ∉ creds.api_secret.data ∧
    '\n' ∉ creds.api_passphrase.data

instance (creds : ApiCreds) : Decidable (LineSafe creds) := by
  unfold LineSafe; infer_instance

/-- Splits a character stream at `'\n'`, keeping the tail after the last
newline as a final segment.  Used for the lines contributed by one `print`
call (whose terminating newline is accounted for separately). -/
def splitLinesAux : List Char → List Char → List (List Char)
  | [], acc => [acc.reverse]
  | c :: cs, acc =>
    if c = '\n' then acc.reverse :: splitLinesAux cs [] else splitLinesAux cs (c :: acc)

/-- The newline-terminated lines of a character stream: a line is emitted at
each `'\n'`; characters after the last `'\n'` belong to no line.  Every
stream this development inspects ends in `'\n'` (Python's `print` appends
one), so nothing is dropped. -/
def linesAux : List Char → List Char → List (List Char)
  | [], _ => []
  | c :: cs, acc =>
    if c = '\n' then acc.reverse :: linesAux cs [] else linesAux cs (c :: acc)

/-- The lines of a stdout text. -/
def stdoutLines (s : String) : List String :=
  (linesAux s.data []).map String.mk

/-- Does the character list `p` occur at the head of `l`? -/
def headMatches : List Char → List Char → Bool
  | [], _ => true
  | _ :: _, [] => false
  | p :: ps, c :: cs => p == c && headMatches ps cs

/-- Does the character list `p` occur contiguously anywhere in `l`? -/
def occursIn (p : List Char) : List Char → Bool
  | [] => p.isEmpty
  | c :: rest => headMatches p (c :: rest) || occursIn p rest

/-- Is this line one of the three credential lines (by its `KEY=` head)? -/
def isCredLine (l : String) : Bool :=
  headMatches "POLYMARKET_API_KEY=".data l.data ||
    headMatches "POLYMARKET_SECRET=".data l.data ||
    headMatches "POLYMARKET_PASSPHRASE=".data l.data

/-- No line of this stdout text is a credential line. -/
def noCredOutput (s : String) : Bool :=
  (stdoutLines s).all fun l => ! isCredLine l

/-- Modelled from the spec: the remote venue's credential store, for the
"create-or-derive" semantics the spec attributes to the external
collaborator.  `store` maps already-registered signing keys to their stored
credential sets; `freshFor` says which credentials the venue would issue for
a not-yet-registered key. -/
structure VenueState where
  store : List (String × ApiCreds)
  freshFor : String → ApiCreds

/-- Modelled from the spec: the venue side of `create_or_derive_api_creds`.
Requesting credentials for an already-registered key returns the existing
set and leaves the venue unchanged; a new key gets fresh credentials which
are registered. -/
def createOrDerive (st : VenueState) (key : String) : ApiCreds × VenueState :=
  match st.store.lookup key with
  | some creds => (creds, st)
  | none =>
    (st.freshFor key, { st with store := (key, st.freshFor key) :: st.store })

/-- The stdout of a run whose derive call succeeds against a venue in state
`st`, using the script's signing key. -/
def runWithVenue (st : VenueState) : String :=
  runStdout (Except.ok (createOrDerive st private_key).1)

/-- A sample credential triplet. -/
def demoCreds : ApiCreds :=
  { api_key := "K1", api_secret := "S1", api_passphrase := "P1" }

/-- A venue that already stores credentials for the script's key. -/
def venueWithStored : VenueState :=
  { store := [(private_key, demoCreds)], freshFor := fun _ => demoCreds }

/-- A venue that would freshly issue the same credentials for any key. -/
def venueFresh : VenueState :=
  { store := [], freshFor := fun _ => demoCreds }

end PolymarketKeys

namespace PolymarketKeys

theorem data_append (s t : String) : (s ++ t).data = s.data ++ t.data := rfl

theorem mk_append (s t : String) : String.mk (s.data ++ t.data) = s ++ t := rfl

theorem linesAux_push (l : List Char) (hl : '\n' ∉ l) (rest acc : List Char) :
    linesAux (l ++ rest) acc = linesAux rest (l.reverse ++ acc) := by
  induction l generalizing acc with
  | nil => simp
  | cons c l ih =>
    have hc : ¬ (c = '\n') := fun h => hl (h ▸ List.mem_cons_self c l)
    have hl' : '\n' ∉ l := fun h => hl (List.mem_cons_of_mem c h)
    simp [linesAux, hc, ih hl']

theorem splitLinesAux_push (l : List Char) (hl : '\n' ∉ l) (rest acc : List Char) :
    splitLinesAux (l ++ rest) acc = splitLinesAux rest (l.reverse ++ acc) := by
  induction l generalizing acc with
  | nil => simp
  | cons c l ih =>
    have hc : ¬ (c = '\n') := fun h => hl (h ▸ List.mem_cons_self c l)
    have hl' : '\n' ∉ l := fun h => hl (List.mem_cons_of_mem c h)
    simp [splitLinesAux, hc, ih hl']

theorem splitLinesAux_nonl (l acc : List Char) (hl : '\n' ∉ l) :
    splitLinesAux l acc = [acc.reverse ++ l] := by
  have h := splitLinesAux_push l hl [] acc
  simpa [splitLinesAux] using h

theorem splitLinesAux_endnl (l : List Char) (hl : '\n' ∉ l) :
    splitLinesAux (l ++ ['\n']) [] = [l, []] := by
  rw [splitLinesAux_push l hl ['\n'] []]
  simp [splitLinesAux]

theorem linesAux_event (l rest acc : List Char) :
    linesAux (l ++ '\n' :: rest) acc = splitLinesAux l acc ++ linesAux rest [] := by
  induction l generalizing acc with
  | nil => simp [linesAux, splitLinesAux]
  | cons c l ih =>
    by_cases hc : c = '\n'
    · subst hc
      simp [linesAux, splitLinesAux, ih]
    · simp [linesAux, splitLinesAux, hc, ih]

theorem newline_data : "\n".data = ['\n'] := rfl

theorem renderPrints_cons_data (x : String) (xs : List String) :
    (renderPrints (x :: xs)).data = x.data ++ '\n' :: (renderPrints xs).data := by
  show (x ++ "\n" ++ renderPrints xs).data = _
  rw [data_append, data_append, newline_data, List.append_assoc]
  rfl

theorem linesAux_render (xs : List String) :
    linesAux (renderPrints xs).data [] =
      (xs.map fun x => splitLinesAux x.data []).flatten := by
  induction xs with
  | nil => simp [renderPrints, linesAux]
  | cons x xs ih =>
    rw [renderPrints_cons_data, linesAux_event, ih]
    simp

theorem stdoutLines_render (xs : List String) :
    stdoutLines (renderPrints xs) =
      (xs.map fun x => (splitLinesAux x.data []).map String.mk).flatten := by
  unfold stdoutLines
  rw [linesAux_render]
  rw [List.map_flatten, List.map_map]
  rfl

end PolymarketKeys

namespace PolymarketKeys

theorem mk_data (s : String) : String.mk s.data = s := rfl

theorem splitLinesAux_single (l : List Char) (hl : '\n' ∉ l) :
    splitLinesAux l [] = [l] := by
  rw [splitLinesAux_nonl l [] hl]
  simp

theorem stdoutLines_failure (e : DeriveError) :
    stdoutLines (runStdout (Except.error e)) =
      ["[*] Connecting to Polymarket CLOB...", "[*] Deriving API credentials..."] := by
  have h1 : runStdout (Except.error e) = renderPrints preludePrints := rfl
  rw [h1]
  decide

theorem stdoutLines_success (creds : ApiCreds) (h : LineSafe creds) :
    stdoutLines (runStdout (Except.ok creds)) =
      ["[*] Connecting to Polymarket CLOB...",
       "[*] Deriving API credentials...",
       "",
       "SUCCESS! Your Polymarket CLOB credentials:",
       "",
       "POLYMARKET_API_KEY=" ++ creds.api_key,
       "POLYMARKET_SECRET=" ++ creds.api_secret,
       "POLYMARKET_PASSPHRASE=" ++ creds.api_passphrase,
       "",
       "Update your .env.local file with:",
       "POLYMARKET_API_KEY=" ++ creds.api_key,
       "POLYMARKET_SECRET=" ++ creds.api_secret,
       "POLYMARKET_PASSPHRASE=" ++ creds.api_passphrase] := by
  obtain ⟨hk, hs, hp⟩ := h
  have hkd : ('\n' : Char) ∉ ("POLYMARKET_API_KEY=" ++ creds.api_key).data := by
    rw [data_append]
    intro hmem
    rcases List.mem_append.mp hmem with hin | hin
    · exact absurd hin (by decide)
    · exact hk hin
  have hsd : ('\n' : Char) ∉ ("POLYMARKET_SECRET=" ++ creds.api_secret).data := by
    rw [data_append]
    intro hmem
    rcases List.mem_append.mp hmem with hin | hin
    · exact absurd hin (by decide)
    · exact hs hin
  have hpd : ('\n' : Char) ∉ ("POLYMARKET_PASSPHRASE=" ++ creds.api_passphrase).data := by
    rw [data_append]
    intro hmem
    rcases List.mem_append.mp hmem with hin | hin
    · exact absurd hin (by decide)
    · exact hp hin
  have e1 : splitLinesAux "[*] Connecting to Polymarket CLOB...".data [] =
      ["[*] Connecting to Polymarket CLOB...".data] :=
    splitLinesAux_single _ (by decide)
  have e2 : splitLinesAux "[*] Deriving API credentials...".data [] =
      ["[*] Deriving API credentials...".data] :=
    splitLinesAux_single _ (by decide)
  have e3 : splitLinesAux "\nSUCCESS! Your Polymarket CLOB credentials:\n".data [] =
      [[], "SUCCESS! Your Polymarket CLOB credentials:".data, []] := by decide
  have e4 : splitLinesAux ("POLYMARKET_API_KEY=" ++ creds.api_key).data [] =
      [("POLYMARKET_API_KEY=" ++ creds.api_key).data] :=
    splitLinesAux_single _ hkd
  have e5 : splitLinesAux ("POLYMARKET_SECRET=" ++ creds.api_secret).data [] =
      [("POLYMARKET_SECRET=" ++ creds.api_secret).data] :=
    splitLinesAux_single _ hsd
  have e6 : splitLinesAux ("POLYMARKET_PASSPHRASE=" ++ creds.api_passphrase ++ "\n").data [] =
      [("POLYMARKET_PASSPHRASE=" ++ creds.api_passphrase).data, []] := by
    have hd : ("POLYMARKET_PASSPHRASE=" ++ creds.api_passphrase ++ "\n").data =
        ("POLYMARKET_PASSPHRASE=" ++ creds.api_passphrase).data ++ ['\n'] := by
      rw [data_append, newline_data]
    rw [hd]
    exact splitLinesAux_endnl _ hpd
  have e7 : splitLinesAux "Update your .env.local file with:".data [] =
      ["Update your .env.local file with:".data] :=
    splitLinesAux_single _ (by decide)
  have e8 : splitLinesAux ("POLYMARKET_PASSPHRASE=" ++ creds.api_passphrase).data [] =
      [("POLYMARKET_PASSPHRASE=" ++ creds.api_passphrase).data] :=
    splitLinesAux_single _ hpd
  have hrun : runPrints (Except.ok creds) =
      ["[*] Connecting to Polymarket CLOB...",
       "[*] Deriving API credentials...",
       "\nSUCCESS! Your Polymarket CLOB credentials:\n",
       "POLYMARKET_API_KEY=" ++ creds.api_key,
       "POLYMARKET_SECRET=" ++ creds.api_secret,
       "POLYMARKET_PASSPHRASE=" ++ creds.api_passphrase ++ "\n",
       "Update your .env.local file with:",
       "POLYMARKET_API_KEY=" ++ creds.api_key,
       "POLYMARKET_SECRET=" ++ creds.api_secret,
       "POLYMARKET_PASSPHRASE=" ++ creds.api_passphrase] := rfl
  show stdoutLines (renderPrints (runPrints (Except.ok creds))) = _
  rw [hrun, stdoutLines_render]
  simp only [List.map_cons, List.map_nil, e1, e2, e3, e4, e5, e6, e7, e8,
    List.flatten_cons, List.flatten_nil, List.map_cons, List.map_nil,
    List.append_nil, List.nil_append, List.cons_append, mk_data]

end PolymarketKeys

namespace PolymarketKeys

theorem stdoutLines_present (creds : ApiCreds) (h : LineSafe creds) :
    stdoutLines (presentCredentialsOut creds) =
      ["POLYMARKET_API_KEY=" ++ creds.api_key,
       "POLYMARKET_SECRET=" ++ creds.api_secret,
       "POLYMARKET_PASSPHRASE=" ++ creds.api_passphrase,
       ""] := by
  obtain ⟨hk, hs, hp⟩ := h
  have hkd : ('\n' : Char) ∉ ("POLYMARKET_API_KEY=" ++ creds.api_key).data := by
    rw [data_append]
    intro hmem
    rcases List.mem_append.mp hmem with hin | hin
    · exact absurd hin (by decide)
    · exact hk hin
  have hsd : ('\n' : Char) ∉ ("POLYMARKET_SECRET=" ++ creds.api_secret).data := by
    rw [data_append]
    intro hmem
    rcases List.mem_append.mp hmem with hin | hin
    · exact absurd hin (by decide)
    · exact hs hin
  have hpd : ('\n' : Char) ∉ ("POLYMARKET_PASSPHRASE=" ++ creds.api_passphrase).data := by
    rw [data_append]
    intro hmem
    rcases List.mem_append.mp hmem with hin | hin
    · exact absurd hin (by decide)
    · exact hp hin
  have e4 : splitLinesAux ("POLYMARKET_API_KEY=" ++ creds.api_key).data [] =
      [("POLYMARKET_API_KEY=" ++ creds.api_key).data] :=
    splitLinesAux_single _ hkd
  have e5 : splitLinesAux ("POLYMARKET_SECRET=" ++ creds.api_secret).data [] =
      [("POLYMARKET_SECRET=" ++ creds.api_secret).data] :=
    splitLinesAux_single _ hsd
  have e6 : splitLinesAux ("POLYMARKET_PASSPHRASE=" ++ creds.api_passphrase ++ "\n").data [] =
      [("POLYMARKET_PASSPHRASE=" ++ creds.api_passphrase).data, []] := by
    have hd : ("POLYMARKET_PASSPHRASE=" ++ creds.api_passphrase ++ "\n").data =
        ("POLYMARKET_PASSPHRASE=" ++ creds.api_passphrase).data ++ ['\n'] := by
      rw [data_append, newline_data]
    rw [hd]
    exact splitLinesAux_endnl _ hpd
  show stdoutLines (renderPrints (presentCredentials creds)) = _
  have hpr : presentCredentials creds =
      ["POLYMARKET_API_KEY=" ++ creds.api_key,
       "POLYMARKET_SECRET=" ++ creds.api_secret,
       "POLYMARKET_PASSPHRASE=" ++ creds.api_passphrase ++ "\n"] := rfl
  rw [hpr, stdoutLines_render]
  simp only [List.map_cons, List.map_nil, e4, e5, e6, List.flatten_cons,
    List.flatten_nil, List.map_cons, List.map_nil, List.append_nil,
    List.nil_append, List.cons_append, mk_data]

theorem headMatches_length (p l : List Char) (h : headMatches p l = true) :
    p.length ≤ l.length := by
  induction p generalizing l with
  | nil => simp
  | cons c p ih =>
    cases l with
    | nil => simp [headMatches] at h
    | cons d l' =>
      simp only [headMatches, Bool.and_eq_true] at h
      have := ih l' h.2
      simp only [List.length_cons]
      omega

theorem occursIn_false_of_lt (p l : List Char) (h : l.length < p.length) :
    occursIn p l = false := by
  induction l with
  | nil =>
    cases p with
    | nil => exact absurd h (by simp)
    | cons c p => rfl
  | cons c rest ih =>
    have h1 : headMatches p (c :: rest) = false := by
      cases hx : headMatches p (c :: rest) with
      | false => rfl
      | true =>
        exfalso
        have hle := headMatches_length p (c :: rest) hx
        simp only [List.length_cons] at hle h
        omega
    have h2 : occursIn p rest = false := by
      apply ih
      simp only [List.length_cons] at h
      omega
    simp [occursIn, h1, h2]

theorem occursIn_append_head (p A B : List Char) (c : Char) (hp : p.head? = some c)
    (hA : c ∉ A) : occursIn p (A ++ B) = occursIn p B := by
  induction A with
  | nil => rfl
  | cons a A ih =>
    have hca : c ≠ a := fun hce => hA (hce ▸ List.mem_cons_self a A)
    have hA' : c ∉ A := fun hce => hA (List.mem_cons_of_mem a hce)
    cases p with
    | nil => simp at hp
    | cons q p' =>
      have hq : q = c := by
        simp only [List.head?, Option.some.injEq] at hp
        exact hp
      have hqa : q ≠ a := hq ▸ hca
      have hm : headMatches (q :: p') (a :: (A ++ B)) = false := by
        have hcb : (q == a) = false := by
          simp [hqa]
        simp [headMatches, hcb]
      simp only [List.cons_append, occursIn, List.append_eq, hm, Bool.false_or]
      exact ih hA'

theorem append_ne_of_idx (p x q y : String) (i : Nat) (c d : Char)
    (h1 : p.data[i]? = some c) (h2 : q.data[i]? = some d) (hcd : c ≠ d) :
    p ++ x ≠ q ++ y := by
  intro he
  have hd : p.data ++ x.data = q.data ++ y.data := by
    have hmm := congrArg String.data he
    rwa [data_append, data_append] at hmm
  have hip : i < p.data.length := (List.getElem?_eq_some.mp h1).1
  have hiq : i < q.data.length := (List.getElem?_eq_some.mp h2).1
  have hget : (p.data ++ x.data)[i]? = (q.data ++ y.data)[i]? := by rw [hd]
  rw [List.getElem?_append_left hip, List.getElem?_append_left hiq, h1, h2] at hget
  exact hcd (Option.some.injEq .. ▸ hget)

theorem append_ne_lit (p x q : String) (i : Nat) (c d : Char)
    (h1 : p.data[i]? = some c) (h2 : q.data[i]? = some d) (hcd : c ≠ d) :
    p ++ x ≠ q := by
  intro he
  have hd : p.data ++ x.data = q.data := by
    have hmm := congrArg String.data he
    rwa [data_append] at hmm
  have hip : i < p.data.length := (List.getElem?_eq_some.mp h1).1
  have hget : (p.data ++ x.data)[i]? = q.data[i]? := by rw [hd]
  rw [List.getElem?_append_left hip, h1, h2] at hget
  exact hcd (Option.some.injEq .. ▸ hget)

theorem append_ne_empty (p x : String) (hp : p.data ≠ []) : p ++ x ≠ "" := by
  intro he
  have hd : p.data ++ x.data = [] := congrArg String.data he
  exact hp (List.append_eq_nil.mp hd).1

end PolymarketKeys

namespace PolymarketKeys

/-- Every run's trace, successful or failed, contains exactly one derive
call: the script is straight-line and the call on line 12 is its only
suspension point. -/
theorem singleDeriveCall (r : Except DeriveError ApiCreds) :
    deriveCallCount (runTrace r) = 1 := by
  cases r with
  | ok creds =>
    simp [deriveCallCount, runTrace, credentialPrints, List.countP_append,
      List.countP_map, List.countP_cons, ScriptEvent.isDeriveCall]
  | error e => rfl

/-- Claim C1, counterexample: applied to the triplet
`{api_key:="a", api_secret:="b", api_passphrase:="c"}`, `presentCredentials`
(lines 15 to 17 of the script) does not write exactly the three lines
`POLYMARKET_API_KEY=a`, `POLYMARKET_SECRET=b`, `POLYMARKET_PASSPHRASE=c`:
the `\n` embedded in the f-string of line 17 makes it write a fourth, blank
line after them. -/
theorem claim1_counterexample :
    stdoutLines (presentCredentialsOut ⟨"a", "b", "c"⟩) ≠
      ["POLYMARKET_API_KEY=a", "POLYMARKET_SECRET=b", "POLYMARKET_PASSPHRASE=c"] := by
  decide

/-- Claim C1, amended: `presentCredentials`, applied to any credential
triplet whose fields contain no newline, writes to standard output exactly
the lines `POLYMARKET_API_KEY=<key>`, `POLYMARKET_SECRET=<secret>`,
`POLYMARKET_PASSPHRASE=<passphrase>` in that order, followed by one blank
line; the formatting is a total function and cannot fail. -/
theorem claim1_presentCredentials (creds : ApiCreds) (h : LineSafe creds) :
    stdoutLines (presentCredentialsOut creds) =
      ["POLYMARKET_API_KEY=" ++ creds.api_key,
       "POLYMARKET_SECRET=" ++ creds.api_secret,
       "POLYMARKET_PASSPHRASE=" ++ creds.api_passphrase,
       ""] :=
  stdoutLines_present creds h

/-- Witness for claim C1 at the triplet `{"a", "b", "c"}` of the claim. -/
theorem claim1_witness :
    LineSafe ⟨"a", "b", "c"⟩ ∧
      stdoutLines (presentCredentialsOut ⟨"a", "b", "c"⟩) =
        ["POLYMARKET_API_KEY=" ++ "a", "POLYMARKET_SECRET=" ++ "b",
         "POLYMARKET_PASSPHRASE=" ++ "c", ""] :=
  ⟨by decide, claim1_presentCredentials ⟨"a", "b", "c"⟩ (by decide)⟩

/-- Claim C3: if the derive call fails with any error, the run aborts at
that point: standard output holds exactly the two progress lines already
printed, and no `KEY=VALUE` line — in particular no partial credential set —
is ever written. -/
theorem claim3_abort_no_credential_line (e : DeriveError) :
    stdoutLines (runStdout (Except.error e)) =
      ["[*] Connecting to Polymarket CLOB...", "[*] Deriving API credentials..."] ∧
    noCredOutput (runStdout (Except.error e)) = true := by
  constructor
  · exact stdoutLines_failure e
  · have h1 : runStdout (Except.error e) = renderPrints preludePrints := rfl
    rw [h1]
    decide

/-- Claim C5, counterexample: on a rejected signing key the run does fail
with `AuthenticationError`, but it does not produce "no output on standard
output": the two progress prints of lines 8 and 11 run before the derive
call, so stdout is nonempty. -/
theorem claim5_counterexample :
    deriveCredentials VenueOutcome.rejectedKey =
        Except.error DeriveError.AuthenticationError ∧
      runStdout (deriveCredentials VenueOutcome.rejectedKey) ≠ "" := by
  constructor
  · rfl
  · decide

/-- Claim C5, amended: for a rejected signing key the run fails with
`AuthenticationError`, writes no credential `KEY=VALUE` line to standard
output (only the two progress lines printed before the call), terminates
with a non-zero exit signal, and surfaces an error message. -/
theorem claim5_rejected_key :
    deriveCredentials VenueOutcome.rejectedKey =
        Except.error DeriveError.AuthenticationError ∧
      stdoutLines (runStdout (deriveCredentials VenueOutcome.rejectedKey)) =
        ["[*] Connecting to Polymarket CLOB...", "[*] Deriving API credentials..."] ∧
      noCredOutput (runStdout (deriveCredentials VenueOutcome.rejectedKey)) = true ∧
      runExitOk (deriveCredentials VenueOutcome.rejectedKey) = false ∧
      runErrorMessage (deriveCredentials VenueOutcome.rejectedKey) =
        some DeriveError.AuthenticationError :=
  ⟨rfl, stdoutLines_failure _, by decide, rfl, rfl⟩

/-- Claim C6: when the venue at `https://clob.polymarket.com` with network
id 137 returns `{api_key:="K1", api_secret:="S1", api_passphrase:="P1"}`,
the full run constructs the client with that endpoint and chain id, prints
the three values in `KEY=VALUE` form, and exits successfully. -/
theorem claim6_end_to_end :
    client.host = "https://clob.polymarket.com" ∧
    client.chain_id = 137 ∧
    ScriptEvent.clientInit client ∈ runTrace (Except.ok ⟨"K1", "S1", "P1"⟩) ∧
    runExitOk (Except.ok ⟨"K1", "S1", "P1"⟩) = true ∧
    stdoutLines (runStdout (Except.ok ⟨"K1", "S1", "P1"⟩)) =
      ["[*] Connecting to Polymarket CLOB...",
       "[*] Deriving API credentials...",
       "",
       "SUCCESS! Your Polymarket CLOB credentials:",
       "",
       "POLYMARKET_API_KEY=K1",
       "POLYMARKET_SECRET=S1",
       "POLYMARKET_PASSPHRASE=P1",
       "",
       "Update your .env.local file with:",
       "POLYMARKET_API_KEY=K1",
       "POLYMARKET_SECRET=S1",
       "POLYMARKET_PASSPHRASE=P1"] :=
  ⟨rfl, rfl, by decide, rfl, by decide⟩

/-- Claim C7: every run, successful or failed, performs exactly one derive
call — never a second call, and in particular never a retry after failure. -/
theorem claim7_exactly_one_derive_call (r : Except DeriveError ApiCreds) :
    deriveCallCount (runTrace r) = 1 :=
  singleDeriveCall r

end PolymarketKeys

namespace PolymarketKeys

/-- Claim C2: on a successful run the three `KEY=VALUE` lines are printed
exactly twice, and the second block of three lines is character-for-character
identical to the first: same field values, same `POLYMARKET_*` names, same
order.  Stated for triplets whose fields contain no newline (so that the
three rendered lines are single lines of output). -/
theorem claim2_block_printed_twice (creds : ApiCreds) (h : LineSafe creds) :
    stdoutLines (runStdout (Except.ok creds)) =
      ["[*] Connecting to Polymarket CLOB...",
       "[*] Deriving API credentials...",
       "",
       "SUCCESS! Your Polymarket CLOB credentials:",
       ""] ++ credBlock creds ++ [""] ++
        ["Update your .env.local file with:"] ++ credBlock creds ∧
    (stdoutLines (runStdout (Except.ok creds))).count
        ("POLYMARKET_API_KEY=" ++ creds.api_key) = 2 ∧
    (stdoutLines (runStdout (Except.ok creds))).count
        ("POLYMARKET_SECRET=" ++ creds.api_secret) = 2 ∧
    (stdoutLines (runStdout (Except.ok creds))).count
        ("POLYMARKET_PASSPHRASE=" ++ creds.api_passphrase) = 2 := by
  have hL1K : "[*] Connecting to Polymarket CLOB..." ≠
      "POLYMARKET_API_KEY=" ++ creds.api_key :=
    Ne.symm (append_ne_lit "POLYMARKET_API_KEY=" creds.api_key
      "[*] Connecting to Polymarket CLOB..." 0 'P' '[' (by decide) (by decide) (by decide))
  have hL2K : "[*] Deriving API credentials..." ≠
      "POLYMARKET_API_KEY=" ++ creds.api_key :=
    Ne.symm (append_ne_lit "POLYMARKET_API_KEY=" creds.api_key
      "[*] Deriving API credentials..." 0 'P' '[' (by decide) (by decide) (by decide))
  have hEK : "" ≠ "POLYMARKET_API_KEY=" ++ creds.api_key :=
    Ne.symm (append_ne_empty "POLYMARKET_API_KEY=" creds.api_key (by decide))
  have hL4K : "SUCCESS! Your Polymarket CLOB credentials:" ≠
      "POLYMARKET_API_KEY=" ++ creds.api_key :=
    Ne.symm (append_ne_lit "POLYMARKET_API_KEY=" creds.api_key
      "SUCCESS! Your Polymarket CLOB credentials:" 0 'P' 'S' (by decide) (by decide) (by decide))
  have hUK : "Update your .env.local file with:" ≠
      "POLYMARKET_API_KEY=" ++ creds.api_key :=
    Ne.symm (append_ne_lit "POLYMARKET_API_KEY=" creds.api_key
      "Update your .env.local file with:" 0 'P' 'U' (by decide) (by decide) (by decide))
  have hL1S : "[*] Connecting to Polymarket CLOB..." ≠
      "POLYMARKET_SECRET=" ++ creds.api_secret :=
    Ne.symm (append_ne_lit "POLYMARKET_SECRET=" creds.api_secret
      "[*] Connecting to Polymarket CLOB..." 0 'P' '[' (by decide) (by decide) (by decide))
  have hL2S : "[*] Deriving API credentials..." ≠
      "POLYMARKET_SECRET=" ++ creds.api_secret :=
    Ne.symm (append_ne_lit "POLYMARKET_SECRET=" creds.api_secret
      "[*] Deriving API credentials..." 0 'P' '[' (by decide) (by decide) (by decide))
  have hES : "" ≠ "POLYMARKET_SECRET=" ++ creds.api_secret :=
    Ne.symm (append_ne_empty "POLYMARKET_SECRET=" creds.api_secret (by decide))
  have hL4S : "SUCCESS! Your Polymarket CLOB credentials:" ≠
      "POLYMARKET_SECRET=" ++ creds.api_secret :=
    Ne.symm (append_ne_lit "POLYMARKET_SECRET=" creds.api_secret
      "SUCCESS! Your Polymarket CLOB credentials:" 0 'P' 'S' (by decide) (by decide) (by decide))
  have hUS : "Update your .env.local file with:" ≠
      "POLYMARKET_SECRET=" ++ creds.api_secret :=
    Ne.symm (append_ne_lit "POLYMARKET_SECRET=" creds.api_secret
      "Update your .env.local file with:" 0 'P' 'U' (by decide) (by decide) (by decide))
  have hL1P : "[*] Connecting to Polymarket CLOB..." ≠
      "POLYMARKET_PASSPHRASE=" ++ creds.api_passphrase :=
    Ne.symm (append_ne_lit "POLYMARKET_PASSPHRASE=" creds.api_passphrase
      "[*] Connecting to Polymarket CLOB..." 0 'P' '[' (by decide) (by decide) (by decide))
  have hL2P : "[*] Deriving API credentials..." ≠
      "POLYMARKET_PASSPHRASE=" ++ creds.api_passphrase :=
    Ne.symm (append_ne_lit "POLYMARKET_PASSPHRASE=" creds.api_passphrase
      "[*] Deriving API credentials..." 0 'P' '[' (by decide) (by decide) (by decide))
  have hEP : "" ≠ "POLYMARKET_PASSPHRASE=" ++ creds.api_passphrase :=
    Ne.symm (append_ne_empty "POLYMARKET_PASSPHRASE=" creds.api_passphrase (by decide))
  have hL4P : "SUCCESS! Your Polymarket CLOB credentials:" ≠
      "POLYMARKET_PASSPHRASE=" ++ creds.api_passphrase :=
    Ne.symm (append_ne_lit "POLYMARKET_PASSPHRASE=" creds.api_passphrase
      "SUCCESS! Your Polymarket CLOB credentials:" 0 'P' 'S' (by decide) (by decide) (by decide))
  have hUP : "Update your .env.local file with:" ≠
      "POLYMARKET_PASSPHRASE=" ++ creds.api_passphrase :=
    Ne.symm (append_ne_lit "POLYMARKET_PASSPHRASE=" creds.api_passphrase
      "Update your .env.local file with:" 0 'P' 'U' (by decide) (by decide) (by decide))
  have hSK : "POLYMARKET_SECRET=" ++ creds.api_secret ≠
      "POLYMARKET_API_KEY=" ++ creds.api_key :=
    append_ne_of_idx "POLYMARKET_SECRET=" creds.api_secret
      "POLYMARKET_API_KEY=" creds.api_key 11 'S' 'A' (by decide) (by decide) (by decide)
  have hKS : "POLYMARKET_API_KEY=" ++ creds.api_key ≠
      "POLYMARKET_SECRET=" ++ creds.api_secret :=
    append_ne_of_idx "POLYMARKET_API_KEY=" creds.api_key
      "POLYMARKET_SECRET=" creds.api_secret 11 'A' 'S' (by decide) (by decide) (by decide)
  have hPK : "POLYMARKET_PASSPHRASE=" ++ creds.api_passphrase ≠
      "POLYMARKET_API_KEY=" ++ creds.api_key :=
    append_ne_of_idx "POLYMARKET_PASSPHRASE=" creds.api_passphrase
      "POLYMARKET_API_KEY=" creds.api_key 11 'P' 'A' (by decide) (by decide) (by decide)
  have hKP : "POLYMARKET_API_KEY=" ++ creds.api_key ≠
      "POLYMARKET_PASSPHRASE=" ++ creds.api_passphrase :=
    append_ne_of_idx "POLYMARKET_API_KEY=" creds.api_key
      "POLYMARKET_PASSPHRASE=" creds.api_passphrase 11 'A' 'P' (by decide) (by decide) (by decide)
  have hPS : "POLYMARKET_PASSPHRASE=" ++ creds.api_passphrase ≠
      "POLYMARKET_SECRET=" ++ creds.api_secret :=
    append_ne_of_idx "POLYMARKET_PASSPHRASE=" creds.api_passphrase
      "POLYMARKET_SECRET=" creds.api_secret 11 'P' 'S' (by decide) (by decide) (by decide)
  have hSP : "POLYMARKET_SECRET=" ++ creds.api_secret ≠
      "POLYMARKET_PASSPHRASE=" ++ creds.api_passphrase :=
    append_ne_of_idx "POLYMARKET_SECRET=" creds.api_secret
      "POLYMARKET_PASSPHRASE=" creds.api_passphrase 11 'S' 'P' (by decide) (by decide) (by decide)
  rw [stdoutLines_success creds h]
  refine ⟨rfl, ?_, ?_, ?_⟩
  · simp [List.count_cons, List.count_nil, beq_iff_eq, hL1K, hL2K, hEK, hL4K, hUK, hSK, hPK]
  · simp [List.count_cons, List.count_nil, beq_iff_eq, hL1S, hL2S, hES, hL4S, hUS, hKS, hPS]
  · simp [List.count_cons, List.count_nil, beq_iff_eq, hL1P, hL2P, hEP, hL4P, hUP, hKP, hSP]

/-- Witness for claim C2 at the triplet `{"K1", "S1", "P1"}`. -/
theorem claim2_witness :
    LineSafe demoCreds ∧
      (stdoutLines (runStdout (Except.ok demoCreds))).count
        ("POLYMARKET_API_KEY=" ++ demoCreds.api_key) = 2 :=
  ⟨by decide, (claim2_block_printed_twice demoCreds (by decide)).2.1⟩

/-- Claim C4: `deriveCredentials` fails with `AuthenticationError` exactly
when the venue rejects the signing key, with `NetworkError` exactly when the
endpoint is unreachable or times out, with `RemoteServiceError` exactly for
any other non-2xx application-level response; no outcome other than success
or one of these three errors is possible, and the failed call is never
retried (the run's trace holds exactly one derive call). -/
theorem claim4_error_taxonomy (o : VenueOutcome) :
    (deriveCredentials o = Except.error DeriveError.AuthenticationError ↔
        o = VenueOutcome.rejectedKey) ∧
      (deriveCredentials o = Except.error DeriveError.NetworkError ↔
        (o = VenueOutcome.unreachable ∨ o = VenueOutcome.timeout)) ∧
      (deriveCredentials o = Except.error DeriveError.RemoteServiceError ↔
        (∃ status, o = VenueOutcome.non2xx status)) ∧
      ((∃ creds, deriveCredentials o = Except.ok creds) ∨
        (∃ e, deriveCredentials o = Except.error e)) ∧
      deriveCallCount (runTrace (deriveCredentials o)) = 1 := by
  refine ⟨?_, ?_, ?_, ?_, singleDeriveCall _⟩ <;> cases o <;> simp [deriveCredentials]

/-- Claim C8: against a venue with create-or-derive semantics, two
consecutive derive calls with the same signing key return an identical
triplet. -/
theorem claim8_idempotent (st : VenueState) (key : String) :
    (createOrDerive (createOrDerive st key).2 key).1 = (createOrDerive st key).1 := by
  unfold createOrDerive
  rcases hl : st.store.lookup key with _ | creds
  · simp only [hl]
    have hl2 : List.lookup key ((key, st.freshFor key) :: st.store) =
        some (st.freshFor key) := by
      simp [List.lookup]
    simp [hl2]
  · simp [hl]

/-- Claim C9: the signing key is never written to standard output.  For a
failed run stdout holds only the two fixed progress lines; for a successful
run whose (newline-free) credential fields do not themselves contain the
key, no printed line contains the private key string. -/
theorem claim9_key_never_printed (creds : ApiCreds) (hsafe : LineSafe creds)
    (hk : occursIn private_key.data creds.api_key.data = false)
    (hs : occursIn private_key.data creds.api_secret.data = false)
    (hp : occursIn private_key.data creds.api_passphrase.data = false) :
    (∀ e : DeriveError,
      ((stdoutLines (runStdout (Except.error e))).all
        fun line => ! occursIn private_key.data line.data) = true) ∧
    ((stdoutLines (runStdout (Except.ok creds))).all
      fun line => ! occursIn private_key.data line.data) = true := by
  constructor
  · intro e
    rw [stdoutLines_failure e]
    decide
  · have hvarK : occursIn private_key.data
        ("POLYMARKET_API_KEY=" ++ creds.api_key).data = false := by
      rw [data_append, occursIn_append_head _ _ _ '0' (by decide) (by decide)]
      exact hk
    have hvarS : occursIn private_key.data
        ("POLYMARKET_SECRET=" ++ creds.api_secret).data = false := by
      rw [data_append, occursIn_append_head _ _ _ '0' (by decide) (by decide)]
      exact hs
    have hvarP : occursIn private_key.data
        ("POLYMARKET_PASSPHRASE=" ++ creds.api_passphrase).data = false := by
      rw [data_append, occursIn_append_head _ _ _ '0' (by decide) (by decide)]
      exact hp
    have hL1 : occursIn private_key.data
        "[*] Connecting to Polymarket CLOB...".data = false :=
      occursIn_false_of_lt _ _ (by decide)
    have hL2 : occursIn private_key.data
        "[*] Deriving API credentials...".data = false :=
      occursIn_false_of_lt _ _ (by decide)
    have hL4 : occursIn private_key.data
        "SUCCESS! Your Polymarket CLOB credentials:".data = false :=
      occursIn_false_of_lt _ _ (by decide)
    have hU : occursIn private_key.data
        "Update your .env.local file with:".data = false :=
      occursIn_false_of_lt _ _ (by decide)
    have hE : occursIn private_key.data "".data = false :=
      occursIn_false_of_lt _ _ (by decide)
    rw [stdoutLines_success creds hsafe]
    simp only [List.all_cons, List.all_nil, hvarK, hvarS, hvarP, hL1, hL2, hL4, hU, hE,
      Bool.not_false, Bool.and_true, Bool.and_self]

/-- Witness for claim C9 at the triplet `{"K1", "S1", "P1"}`, none of whose
fields contains the signing key. -/
theorem claim9_witness :
    LineSafe demoCreds ∧
      ((stdoutLines (runStdout (Except.ok demoCreds))).all
        fun line => ! occursIn private_key.data line.data) = true :=
  ⟨by decide,
    (claim9_key_never_printed demoCreds (by decide) (by decide) (by decide) (by decide)).2⟩

/-- Claim C10: the run's standard output is a deterministic function of the
credential triplet the client call returns: two runs against venues in
possibly different states that return the same triplet produce
character-for-character identical output. -/
theorem claim10_deterministic_output (st₁ st₂ : VenueState)
    (h : (createOrDerive st₁ private_key).1 = (createOrDerive st₂ private_key).1) :
    runWithVenue st₁ = runWithVenue st₂ := by
  unfold runWithVenue
  rw [h]

/-- Witness for claim C10: a venue that already stores `demoCreds` for the
script's key and a venue that freshly issues `demoCreds` return the same
triplet, and the two runs print identical output. -/
theorem claim10_witness :
    (createOrDerive venueWithStored private_key).1 =
        (createOrDerive venueFresh private_key).1 ∧
      runWithVenue venueWithStored = runWithVenue venueFresh := by
  have h : (createOrDerive venueWithStored private_key).1 =
      (createOrDerive venueFresh private_key).1 := by
    simp [createOrDerive, venueWithStored, venueFresh, List.lookup]
  exact ⟨h, claim10_deterministic_output venueWithStored venueFresh h⟩

end PolymarketKeys
